import Mathlib

/-!
Verification of the Git diff view panel core
(`src/gitDiffView.ts`, two versions of the class `GitDiffView`).

The development shallowly embeds the panel lifecycle state machine:
the static singleton registry slot `GitDiffView.currentPanel`,
`createOrShow`, the document-save handler, the view-state handler,
`refreshViewContent`, the disposal chain and the HTML template
`getHtmlForWebview`.  External collaborators (the shell executor, the
diff-to-HTML renderer, the host webview) are modelled as parameters or
as explicit state, following the specification's collaborator contracts.
-/

set_option maxRecDepth 100000

/-! ## String machinery

Substring matching over `List Char`, used to state properties of the
generated HTML document and of the save-path suffix rule. -/

/-- `isPre p s` is true when `p` is a leading segment of `s`. -/
def isPre (p s : List Char) : Bool :=
  match p, s with
  | [], _ => true
  | _ :: _, [] => false
  | c :: t, d :: u => c == d && isPre t u

/-- `isSuf p s` is true when `p` is a trailing segment of `s`. -/
def isSuf (p s : List Char) : Bool :=
  isPre p.reverse s.reverse

/-- `occurs p s` is true when `p` appears as a contiguous segment of `s`. -/
def occurs (p : List Char) : List Char → Bool
  | [] => p.isEmpty
  | c :: t => isPre p (c :: t) || occurs p t

/-- `occCount p s` counts the positions of `s` at which `p` occurs. -/
def occCount (p : List Char) : List Char → Nat
  | [] => if p.isEmpty then 1 else 0
  | c :: t => (if isPre p (c :: t) then 1 else 0) + occCount p t

/-- JavaScript `savedPath.endsWith(watched)`: suffix test on strings. -/
def jsEndsWith (s pat : String) : Bool :=
  isSuf pat.data s.data

/-! ## The HTML template of `GitDiffView.getHtmlForWebview`

The TypeScript method is a template literal with three interpolation
sites: the media URI returned by the host, the rendered diff fragment
`html(diffContent)` produced by the external renderer, and the stored
command string `this.gitCmd`.  The literal text between the sites is
reproduced verbatim below (tabs and newlines included). -/

def htmlPartA : String := "\n\t\t<!DOCTYPE html>\n\t\t<html lang=\"en\" id=\"diff-2-html\">\n\t\t<head>\n\t\t\t<title></title>\n\t\t\t<meta charset=\"UTF-8\">\n\t\t\t<meta name=\"viewport\" content=\"width=device-width, initial-scale=1.0\">\n\t\t\t<meta http-equiv=\"Content-Type\" content=\"text/html; charset=UTF-8\">\n\t\t\t<link rel=\"stylesheet\" type=\"text/css\" href=\""

def htmlPartB : String := "\">\n\t\t\t<link rel=\"stylesheet\" href=\"https://cdnjs.cloudflare.com/ajax/libs/highlight.js/11.2.0/styles/github.min.css\" />\n\t\t\t<link rel=\"stylesheet\" type=\"text/css\" href=\"https://cdn.jsdelivr.net/npm/diff2html/bundles/css/diff2html.min.css\" />\n\t\t\t<script type=\"text/javascript\" src=\"https://cdn.jsdelivr.net/npm/diff2html/bundles/js/diff2html-ui.min.js\"></script>\n\t\t</head>\n\t\t<body style=\"position:inherit\">\n\t\t\t<div id=\"app\">\n\t\t\t\t"

def htmlPartC : String := "\n\t\t\t</div>\n\n\t\t\t<div>\n\t\t\t\t<hr/><br/>\n\t\t\t\t<b>The cmd use to generate this is:</b><br/>\n\t\t\t\t"

def htmlPartD : String := ";\n\t\t\t</div>\n\t\t</body>\n\t\t</html>"

/-- `GitDiffView.getHtmlForWebview` (command-driven version): the
template literal applied to the resolved media URI, the rendered diff
fragment and the generating command string. -/
def getHtmlForWebview (mediaUri frag gitCmd : String) : String :=
  htmlPartA ++ mediaUri ++ htmlPartB ++ frag ++ htmlPartC ++ gitCmd ++ htmlPartD

/-! The earlier direct-content version of the class renders the same
head, an empty `app` div, and the fragment directly in the body; it
takes no command string. -/

def directPartB : String := "\">\n\t\t\t<link rel=\"stylesheet\" href=\"https://cdnjs.cloudflare.com/ajax/libs/highlight.js/11.2.0/styles/github.min.css\" />\n\t\t\t<link rel=\"stylesheet\" type=\"text/css\" href=\"https://cdn.jsdelivr.net/npm/diff2html/bundles/css/diff2html.min.css\" />\n\t\t\t<script type=\"text/javascript\" src=\"https://cdn.jsdelivr.net/npm/diff2html/bundles/js/diff2html-ui.min.js\"></script>\n\t\t</head>\n\t\t<body>\n\t\t\t<div id=\"app\"></div>\n\t\t\t"

def directPartC : String := "\n\t\t</body>\n\t\t</html>"

/-- `GitDiffView.getHtmlForWebview` (direct-content version): same
head as the command-driven template, fragment interpolated once in the
body, no command string. -/
def getHtmlForWebviewDirect (mediaUri frag : String) : String :=
  htmlPartA ++ mediaUri ++ directPartB ++ frag ++ directPartC

/-! ## The panel lifecycle state machine

Shallow embedding of the command-driven `GitDiffView` class together
with the host-environment wiring it consumes.  Instances live in a
store indexed by construction order; the static field
`GitDiffView.currentPanel` is the registry slot.  Append-only logs
record the observable interactions with the host (refresh triggers
handed to the shell executor, reveal requests, cleanup actions). -/

/-- One `GitDiffView` instance: the per-object fields of the class.
`webviewHtml` is the HTML currently displayed by the owned webview
panel; `disposed` is the idempotence flag of the disposal chain. -/
structure GitDiffView where
  mediaUri : String
  gitCmd : String
  filePath : String
  webviewHtml : String
  isPanelVisible : Bool
  disposed : Bool
deriving DecidableEq

/-- Global state: the instance store, the static registry slot
`currentPanel`, the live host subscriptions and panels, the pending
shell executions, and the observable logs.
`saveListeners` holds the instances whose `onDidSaveTextDocument`
subscription is live; `pending` holds issued shell commands whose
promise has not settled; `refreshLog` records every refresh trigger
(instance, command); `revealLog` records reveal requests
(instance, column); `cleanupLog` records disposal-chain actions
(instance, action index in registration order). -/
structure GState where
  instances : Nat → Option GitDiffView
  nextId : Nat
  currentPanel : Option Nat
  saveListeners : List Nat
  panelsCreated : Nat
  livePanels : List Nat
  pending : List (Nat × String)
  refreshLog : List (Nat × String)
  revealLog : List (Nat × Nat)
  cleanupLog : List (Nat × Nat)

/-- The state before any `createOrShow` call: empty store, empty slot. -/
def initState : GState :=
  { instances := fun _ => none
    nextId := 0
    currentPanel := none
    saveListeners := []
    panelsCreated := 0
    livePanels := []
    pending := []
    refreshLog := []
    revealLog := []
    cleanupLog := [] }

/-- Store update: overwrite the instance stored at index `i`. -/
def setInst (gs : GState) (i : Nat) (v : GitDiffView) : GState :=
  { gs with instances := fun j => if j = i then some v else gs.instances j }

/-- `GitDiffView.refreshViewContent` (the synchronous part): issue
`execShell(this.gitCmd)` to the external execution collaborator.  The
command joins `pending`; its asynchronous settlement is `execResolve`.
The trigger itself is recorded in `refreshLog`. -/
def refreshViewContent (id : Nat) (gs : GState) : GState :=
  match gs.instances id with
  | none => gs
  | some inst =>
      { gs with
        pending := gs.pending ++ [(id, inst.gitCmd)]
        refreshLog := gs.refreshLog ++ [(id, inst.gitCmd)] }

/-- Modelled from the spec: `execShell` (`src/utils`) is not among the
embedded sources; per the specification's collaborator contract
`runDiffCommand(cmd) -> Promise<text>` it may reject, so its
settlement is the parameter `res`.  The continuation is the source's:
`render` is the external diff-to-HTML renderer `html(diffContent)`,
and on fulfilment the `.then` continuation of `refreshViewContent`
assigns the generated document to `panel.webview.html`; the source
installs no rejection handler, so on rejection nothing further runs. -/
def execResolve (n : Nat) (res : Except Unit String) (render : String → String)
    (gs : GState) : GState :=
  match gs.pending.get? n with
  | none => gs
  | some (id, _cmd) =>
      let gs1 := { gs with pending := gs.pending.eraseIdx n }
      match res with
      | Except.error _ => gs1
      | Except.ok stdout =>
          match gs1.instances id with
          | none => gs1
          | some inst =>
              setInst gs1 id
                { inst with
                  webviewHtml := getHtmlForWebview inst.mediaUri (render stdout) inst.gitCmd }

/-- Modelled from the spec: `Disposable` / `toDisposable`
(`src/utils/disposable`) are not among the embedded sources, so the
chain semantics of `GitDiffView.dispose` follows the specification's
DisposableChain — every registered action runs exactly once, in
registration order, and disposal is idempotent.  The actions
registered by the constructor, in order:
0 clear the registry slot `GitDiffView.currentPanel`;
1 detach the panel `onDidDispose` hook;
2 detach the `onDidChangeViewState` hook;
3 dispose the host webview panel.
The save-document subscription is absent from this list, as in the
constructor. -/
def dispose (id : Nat) (gs : GState) : GState :=
  match gs.instances id with
  | none => gs
  | some inst =>
      if inst.disposed then gs
      else
        let gs0 := setInst gs id { inst with disposed := true }
        let gs1 := { gs0 with
                     currentPanel := none
                     cleanupLog := gs0.cleanupLog ++ [(id, 0)] }
        let gs2 := { gs1 with cleanupLog := gs1.cleanupLog ++ [(id, 1)] }
        let gs3 := { gs2 with cleanupLog := gs2.cleanupLog ++ [(id, 2)] }
        { gs3 with
          livePanels := gs3.livePanels.erase id
          cleanupLog := gs3.cleanupLog ++ [(id, 3)] }

/-- `GitDiffView.createOrShow`.  Occupied slot: reveal the existing
panel in the requested column, overwrite `gitCmd` and `filePath`, and
trigger a refresh.  Empty slot: construct a new instance — create a
host webview panel, perform the initial refresh, register the
document-save subscription — and store it in the slot. -/
def createOrShow (extensionPath gitCmd filePath : String) (column : Nat)
    (gs : GState) : GState :=
  match gs.currentPanel with
  | some id =>
      let gs1 := { gs with revealLog := gs.revealLog ++ [(id, column)] }
      let gs2 :=
        match gs1.instances id with
        | none => gs1
        | some inst => setInst gs1 id { inst with gitCmd := gitCmd, filePath := filePath }
      refreshViewContent id gs2
  | none =>
      let id := gs.nextId
      let inst : GitDiffView :=
        { mediaUri := extensionPath
          gitCmd := gitCmd
          filePath := filePath
          webviewHtml := ""
          isPanelVisible := true
          disposed := false }
      let gs1 := { gs with
                   instances := fun j => if j = id then some inst else gs.instances j
                   nextId := id + 1
                   currentPanel := some id
                   panelsCreated := gs.panelsCreated + 1
                   livePanels := gs.livePanels ++ [id] }
      let gs2 := refreshViewContent id gs1
      { gs2 with saveListeners := gs2.saveListeners ++ [id] }

/-- The `onDidSaveTextDocument` handler of one subscription: the
branching of the source — refresh when the saved path is truthy and
ends with `this.filePath`, else refresh when `this.filePath` is the
whole-repository marker, else nothing. -/
def handleSave (savedPath : String) (id : Nat) (gs : GState) : GState :=
  match gs.instances id with
  | none => gs
  | some inst =>
      if savedPath != "" && jsEndsWith savedPath inst.filePath then
        refreshViewContent id gs
      else if inst.filePath == "." then
        refreshViewContent id gs
      else gs

/-- A document-save notification from the host: every live
subscription's handler runs, in registration order. -/
def onSave (savedPath : String) (gs : GState) : GState :=
  gs.saveListeners.foldl (fun g id => handleSave savedPath id g) gs

/-- The `onDidChangeViewState` handler: store the host-reported
visibility exactly when it differs from the stored value.  The hook is
detached by the disposal chain, so it no longer runs on a disposed
instance. -/
def handleViewChange (id : Nat) (visible : Bool) (gs : GState) : GState :=
  match gs.instances id with
  | none => gs
  | some inst =>
      if inst.disposed then gs
      else if visible != inst.isPanelVisible then
        setInst gs id { inst with isPanelVisible := visible }
      else gs

/-- The decision core of the save handler as a pure predicate over the
watched path and the saved path (same branch structure as the
handler). -/
def saveHandlerFires (filePath savedPath : String) : Bool :=
  if savedPath != "" && jsEndsWith savedPath filePath then true
  else if filePath == "." then true
  else false

/-- Host-delivered events driving the core. -/
inductive Ev where
  | createShow (extensionPath gitCmd filePath : String) (column : Nat)
  | saved (savedPath : String)
  | closePanel (id : Nat)
  | execDone (n : Nat) (res : Except Unit String)
  | viewChange (id : Nat) (visible : Bool)

/-- One event step. -/
def step (render : String → String) (ev : Ev) (gs : GState) : GState :=
  match ev with
  | Ev.createShow e c f col => createOrShow e c f col gs
  | Ev.saved p => onSave p gs
  | Ev.closePanel id => dispose id gs
  | Ev.execDone n res => execResolve n res render gs
  | Ev.viewChange id v => handleViewChange id v gs

/-- Run a sequence of events. -/
def runEvents (render : String → String) (evs : List Ev) (gs : GState) : GState :=
  evs.foldl (fun g e => step render e g) gs

/-- Number of live (constructed, not yet disposed) instances. -/
def liveCount (gs : GState) : Nat :=
  ((List.range gs.nextId).filter fun i =>
    match gs.instances i with
    | some inst => !inst.disposed
    | none => false).length

/-- Run a sequence of `createOrShow` calls
(extensionPath, gitCmd, filePath, column) from the initial state. -/
def runCreates (calls : List (String × String × String × Nat)) : GState :=
  calls.foldl (fun g c => createOrShow c.1 c.2.1 c.2.2.1 c.2.2.2 g) initState

/-! ## Concrete scenario states

Closed states used to exercise the machine on explicit inputs. -/

/-- A stored instance watching `"old.txt"`. -/
def instW : GitDiffView :=
  { mediaUri := "ext"
    gitCmd := "git diff"
    filePath := "old.txt"
    webviewHtml := ""
    isPanelVisible := true
    disposed := false }

/-- A state whose registry slot holds the live instance `instW`. -/
def gsW : GState :=
  { initState with
    instances := fun j => if j = 0 then some instW else none
    nextId := 1
    currentPanel := some 0
    saveListeners := [0]
    panelsCreated := 1
    livePanels := [0] }

/-- State after `createOrShow` with watched path `""`. -/
def gsS : GState := createOrShow "e" "git diff" "" 1 initState

/-- State after `createOrShow` with watched path `"file.txt"`. -/
def gsA : GState := createOrShow "ext" "git diff HEAD" "file.txt" 1 initState

/-- `gsA` after the instance is disposed. -/
def gsB : GState := dispose 0 gsA

/-- `gsB` after the host reports that `/repo/file.txt` was saved. -/
def gsC : GState := onSave "/repo/file.txt" gsB

/-! ## Lemmas: substring machinery -/

theorem isPre_self_app (p y : List Char) : isPre p (p ++ y) = true := by
  induction p with
  | nil => simp [isPre]
  | cons c t ih => simp [isPre, ih]

theorem isPre_app_ext (p : List Char) :
    ∀ a b : List Char, isPre p a = true → isPre p (a ++ b) = true := by
  induction p with
  | nil => intro a b _; simp [isPre]
  | cons c t ih =>
    intro a b h
    cases a with
    | nil => simp [isPre] at h
    | cons d u =>
      simp only [isPre, Bool.and_eq_true] at h
      simp only [List.cons_append, isPre, Bool.and_eq_true]
      exact ⟨h.1, ih u b h.2⟩

theorem isSuf_app_ext (p a b : List Char) (h : isSuf p b = true) :
    isSuf p (a ++ b) = true := by
  unfold isSuf at h ⊢
  rw [List.reverse_append]
  exact isPre_app_ext p.reverse b.reverse a.reverse h

theorem occurs_of_pre (p s : List Char) (h : isPre p s = true) : occurs p s = true := by
  cases s with
  | nil =>
    cases p with
    | nil => simp [occurs, List.isEmpty]
    | cons c t => simp [isPre] at h
  | cons c t => simp only [occurs, h, Bool.true_or]

theorem occurs_app_left (p : List Char) :
    ∀ a b : List Char, occurs p a = true → occurs p (a ++ b) = true := by
  intro a
  induction a with
  | nil =>
    intro b h
    cases p with
    | nil => exact occurs_of_pre [] b (by simp [isPre])
    | cons c t => simp [occurs, List.isEmpty] at h
  | cons c t ih =>
    intro b h
    simp only [occurs, Bool.or_eq_true] at h
    simp only [List.cons_append, occurs, Bool.or_eq_true]
    rcases h with h | h
    · exact Or.inl (isPre_app_ext p (c :: t) b h)
    · exact Or.inr (ih b h)

theorem occurs_app_right (p : List Char) :
    ∀ a b : List Char, occurs p b = true → occurs p (a ++ b) = true := by
  intro a
  induction a with
  | nil => intro b h; simpa using h
  | cons c t ih =>
    intro b h
    simp only [List.cons_append, occurs, Bool.or_eq_true]
    exact Or.inr (ih b h)

/-! ## Lemmas: the state machine -/

theorem refreshViewContent_fields (id : Nat) (gs : GState) :
    (refreshViewContent id gs).instances = gs.instances ∧
    (refreshViewContent id gs).nextId = gs.nextId ∧
    (refreshViewContent id gs).currentPanel = gs.currentPanel ∧
    (refreshViewContent id gs).panelsCreated = gs.panelsCreated ∧
    (refreshViewContent id gs).saveListeners = gs.saveListeners := by
  unfold refreshViewContent
  cases gs.instances id <;> exact ⟨rfl, rfl, rfl, rfl, rfl⟩

theorem createOrShow_reuse_fields (e c f : String) (col : Nat) (gs : GState) (id : Nat)
    (h : gs.currentPanel = some id) :
    (createOrShow e c f col gs).nextId = gs.nextId ∧
    (createOrShow e c f col gs).panelsCreated = gs.panelsCreated ∧
    (createOrShow e c f col gs).currentPanel = some id := by
  unfold createOrShow
  rw [h]
  cases hi : gs.instances id <;>
    simp [refreshViewContent_fields, setInst, hi, h]

theorem createOrShow_new_fields (e c f : String) (col : Nat) (gs : GState)
    (h : gs.currentPanel = none) :
    (createOrShow e c f col gs).nextId = gs.nextId + 1 ∧
    (createOrShow e c f col gs).panelsCreated = gs.panelsCreated + 1 ∧
    (createOrShow e c f col gs).currentPanel = some gs.nextId ∧
    (createOrShow e c f col gs).instances gs.nextId =
      some { mediaUri := e, gitCmd := c, filePath := f, webviewHtml := ""
             isPanelVisible := true, disposed := false } := by
  unfold createOrShow
  rw [h]
  simp [refreshViewContent, setInst]

theorem createOrShow_preserves_inv (e c f : String) (col : Nat) (gs : GState)
    (h : gs.nextId ≤ 1 ∧ (gs.currentPanel = none → gs.nextId = 0)) :
    (createOrShow e c f col gs).nextId ≤ 1 ∧
      ((createOrShow e c f col gs).currentPanel = none →
        (createOrShow e c f col gs).nextId = 0) := by
  cases hcp : gs.currentPanel with
  | some id =>
    obtain ⟨h1, h2, h3⟩ := createOrShow_reuse_fields e c f col gs id hcp
    refine ⟨h1 ▸ h.1, ?_⟩
    intro hc
    rw [h3] at hc
    exact absurd hc (by simp)
  | none =>
    obtain ⟨h1, h2, h3, h4⟩ := createOrShow_new_fields e c f col gs hcp
    have hz : gs.nextId = 0 := h.2 hcp
    refine ⟨by omega, ?_⟩
    intro hc
    rw [h3] at hc
    exact absurd hc (by simp)

theorem runCreates_aux (calls : List (String × String × String × Nat)) :
    ∀ gs : GState,
      gs.nextId ≤ 1 ∧ (gs.currentPanel = none → gs.nextId = 0) →
      (calls.foldl (fun g c => createOrShow c.1 c.2.1 c.2.2.1 c.2.2.2 g) gs).nextId ≤ 1 ∧
        ((calls.foldl (fun g c => createOrShow c.1 c.2.1 c.2.2.1 c.2.2.2 g) gs).currentPanel = none →
          (calls.foldl (fun g c => createOrShow c.1 c.2.1 c.2.2.1 c.2.2.2 g) gs).nextId = 0) := by
  induction calls with
  | nil => intro gs h; simpa using h
  | cons hd tl ih =>
    intro gs h
    simp only [List.foldl_cons]
    exact ih _ (createOrShow_preserves_inv hd.1 hd.2.1 hd.2.2.1 hd.2.2.2 gs h)

theorem liveCount_le_nextId (gs : GState) : liveCount gs ≤ gs.nextId := by
  unfold liveCount
  calc (List.filter _ (List.range gs.nextId)).length
      ≤ (List.range gs.nextId).length := List.length_filter_le _ _
    _ = gs.nextId := List.length_range _

theorem setInst_lookup_eq (gs : GState) (i : Nat) (v : GitDiffView) :
    (setInst gs i v).instances i = some v := by
  simp [setInst]

theorem setInst_lookup_ne (gs : GState) (i id : Nat) (v : GitDiffView) (h : id ≠ i) :
    (setInst gs i v).instances id = gs.instances id := by
  simp [setInst, h]

theorem createOrShow_reuse_state (e c f : String) (col : Nat) (gs : GState) (id : Nat)
    (inst : GitDiffView) (h1 : gs.currentPanel = some id)
    (h2 : gs.instances id = some inst) :
    (createOrShow e c f col gs).instances id = some { inst with gitCmd := c, filePath := f } ∧
    (createOrShow e c f col gs).refreshLog = gs.refreshLog ++ [(id, c)] ∧
    (createOrShow e c f col gs).pending = gs.pending ++ [(id, c)] ∧
    (createOrShow e c f col gs).revealLog = gs.revealLog ++ [(id, col)] ∧
    (createOrShow e c f col gs).panelsCreated = gs.panelsCreated ∧
    (createOrShow e c f col gs).nextId = gs.nextId ∧
    (createOrShow e c f col gs).currentPanel = some id := by
  unfold createOrShow
  rw [h1]
  simp [h2, setInst, refreshViewContent]

theorem createOrShow_reuse_other (e c f : String) (col : Nat) (gs : GState) (id j : Nat)
    (h1 : gs.currentPanel = some j) (hne : id ≠ j) :
    (createOrShow e c f col gs).instances id = gs.instances id := by
  unfold createOrShow
  rw [h1]
  cases hi : gs.instances j with
  | none =>
    unfold refreshViewContent
    simp [hi]
  | some inst =>
    unfold refreshViewContent
    simp [hi, setInst, hne]

theorem createOrShow_new_other (e c f : String) (col : Nat) (gs : GState) (id : Nat)
    (h1 : gs.currentPanel = none) (hne : id ≠ gs.nextId) :
    (createOrShow e c f col gs).instances id = gs.instances id := by
  unfold createOrShow
  rw [h1]
  simp [refreshViewContent, setInst, hne]

theorem dispose_run_fields (gs : GState) (id : Nat) (inst : GitDiffView)
    (h2 : gs.instances id = some inst) (h3 : inst.disposed = false) :
    (dispose id gs).currentPanel = none ∧
    (dispose id gs).nextId = gs.nextId ∧
    (dispose id gs).panelsCreated = gs.panelsCreated ∧
    (dispose id gs).instances id = some { inst with disposed := true } ∧
    (dispose id gs).cleanupLog = gs.cleanupLog ++ [(id, 0), (id, 1), (id, 2), (id, 3)] ∧
    (dispose id gs).saveListeners = gs.saveListeners := by
  unfold dispose
  simp [h2, h3, setInst]

theorem dispose_noop_of_none (gs : GState) (id : Nat) (h : gs.instances id = none) :
    dispose id gs = gs := by
  unfold dispose
  rw [h]

theorem dispose_noop_of_disposed (gs : GState) (id : Nat) (inst : GitDiffView)
    (h : gs.instances id = some inst) (hd : inst.disposed = true) :
    dispose id gs = gs := by
  unfold dispose
  rw [h]
  simp [hd]

theorem handleSave_instances (p : String) (i : Nat) (g : GState) :
    (handleSave p i g).instances = g.instances := by
  unfold handleSave
  cases g.instances i with
  | none => rfl
  | some inst =>
    dsimp only
    by_cases hA : (p != "" && jsEndsWith p inst.filePath) = true
    · rw [if_pos hA]
      exact (refreshViewContent_fields i g).1
    · rw [if_neg hA]
      by_cases hB : (inst.filePath == ".") = true
      · rw [if_pos hB]
        exact (refreshViewContent_fields i g).1
      · rw [if_neg hB]

theorem foldl_handleSave_instances (p : String) (l : List Nat) :
    ∀ g : GState,
      (l.foldl (fun g id => handleSave p id g) g).instances = g.instances := by
  induction l with
  | nil => intro g; rfl
  | cons hd tl ih =>
    intro g
    simp only [List.foldl_cons]
    rw [ih (handleSave p hd g), handleSave_instances]

theorem onSave_instances (p : String) (g : GState) :
    (onSave p g).instances = g.instances := by
  unfold onSave
  exact foldl_handleSave_instances p g.saveListeners g

theorem dispose_visible_preserved (gs : GState) (j id : Nat) (inst : GitDiffView)
    (h : gs.instances id = some inst) :
    ((dispose j gs).instances id).map GitDiffView.isPanelVisible =
      some inst.isPanelVisible := by
  cases hj : gs.instances j with
  | none => rw [dispose_noop_of_none gs j hj, h]; rfl
  | some instj =>
    cases hd : instj.disposed with
    | true => rw [dispose_noop_of_disposed gs j instj hj hd, h]; rfl
    | false =>
      by_cases hij : id = j
      · subst hij
        rw [h] at hj
        cases hj
        rw [(dispose_run_fields gs id inst h hd).2.2.2.1]
        rfl
      · have : (dispose j gs).instances id = gs.instances id := by
          unfold dispose
          simp [hj, hd, setInst, hij]
        rw [this, h]
        rfl

theorem execResolve_visible_preserved (render : String → String) (n : Nat)
    (res : Except Unit String) (gs : GState) (i : Nat) (inst : GitDiffView)
    (h : gs.instances i = some inst) :
    ((execResolve n res render gs).instances i).map GitDiffView.isPanelVisible =
      some inst.isPanelVisible := by
  unfold execResolve
  cases gs.pending.get? n with
  | none => rw [h]; rfl
  | some pr =>
    cases res with
    | error e => simp only []; rw [h]; rfl
    | ok stdout =>
      by_cases hij : i = pr.1
      · cases hj : gs.instances pr.1 with
        | none => rw [hij, hj] at h; cases h
        | some instj =>
          rw [hij, hj] at h
          cases h
          simp [hj, setInst, hij]
      · cases hj : gs.instances pr.1 with
        | none => simp [hj, h]
        | some instj => simp [hj, setInst, hij, h]

theorem handleSave_eq_fires (gs : GState) (i : Nat) (inst : GitDiffView) (sp : String)
    (h : gs.instances i = some inst) :
    handleSave sp i gs =
      (if saveHandlerFires inst.filePath sp then refreshViewContent i gs else gs) := by
  unfold handleSave saveHandlerFires
  rw [h]
  dsimp only
  by_cases hA : (sp != "" && jsEndsWith sp inst.filePath) = true
  · rw [if_pos hA, if_pos (by rw [if_pos hA])]
  · rw [if_neg hA]
    by_cases hB : (inst.filePath == ".") = true
    · rw [if_pos hB, if_pos (by rw [if_neg hA, if_pos hB])]
    · rw [if_neg hB, if_neg (by rw [if_neg hA, if_neg hB]; exact Bool.false_ne_true)]

/-! ## Claims -/

/-- Claim C1: for every sequence of `createOrShow` calls, at most one
live `GitDiffView` instance exists at any time; whenever the registry
slot `currentPanel` is occupied, `createOrShow` reuses that instance —
no instance is constructed, no host panel is created, and the slot is
unchanged. -/
theorem claim1_createOrShow_singleton :
    (∀ calls : List (String × String × String × Nat),
      liveCount (runCreates calls) ≤ 1) ∧
    (∀ (gs : GState) (id : Nat) (e c f : String) (col : Nat),
      gs.currentPanel = some id →
        (createOrShow e c f col gs).nextId = gs.nextId ∧
        (createOrShow e c f col gs).panelsCreated = gs.panelsCreated ∧
        (createOrShow e c f col gs).currentPanel = some id) := by
  constructor
  · intro calls
    have h := runCreates_aux calls initState (by exact ⟨by simp [initState], fun _ => rfl⟩)
    calc liveCount (runCreates calls) ≤ (runCreates calls).nextId := liveCount_le_nextId _
      _ ≤ 1 := h.1
  · intro gs id e c f col h
    exact createOrShow_reuse_fields e c f col gs id h

/-- Witness for C1 at a concrete call sequence and a concrete occupied
state. -/
theorem claim1_createOrShow_singleton_witness :
    liveCount (runCreates [("e", "git diff", "a.txt", 1)]) ≤ 1 ∧
    ((createOrShow "e2" "c2" "f2" 2 gsW).nextId = gsW.nextId ∧
      (createOrShow "e2" "c2" "f2" 2 gsW).panelsCreated = gsW.panelsCreated ∧
      (createOrShow "e2" "c2" "f2" 2 gsW).currentPanel = some 0) :=
  ⟨claim1_createOrShow_singleton.1 [("e", "git diff", "a.txt", 1)],
   claim1_createOrShow_singleton.2 gsW 0 "e2" "c2" "f2" 2 rfl⟩

/-- Claim C2 counterexample: with watched path `""` and saved path
`""`, the saved path ends with the watched path (suffix match) and the
watched path is not the whole-repository marker `"."`, so the claim's
rule demands a refresh; the handler triggers none (the source guards
on the truthiness of `uri.path`, and the empty path is falsy).  A
triggered refresh is observable: it would have extended `refreshLog`. -/
theorem claim2_saveHandler_claim_cex :
    (handleSave "" 0 gsS).refreshLog = gsS.refreshLog ∧
    (gsS.instances 0).map GitDiffView.filePath = some "" ∧
    jsEndsWith "" "" = true ∧
    ("" : String) ≠ "." ∧
    (refreshViewContent 0 gsS).refreshLog ≠ gsS.refreshLog := by
  exact ⟨by decide, by decide, by decide, by decide, by decide⟩

/-- Claim C2 (amended): the handler triggers a refresh if and only if
the watched path is the whole-repository marker `"."`, or the saved
path is nonempty and ends with the watched path.  The handler equals
`refreshViewContent` gated on the pure decision `saveHandlerFires`;
the claim's concrete instances hold. -/
theorem claim2_saveHandler_iff :
    (∀ (gs : GState) (id : Nat) (inst : GitDiffView) (savedPath : String),
      gs.instances id = some inst →
        handleSave savedPath id gs =
          (if saveHandlerFires inst.filePath savedPath then refreshViewContent id gs
           else gs)) ∧
    (∀ watchedPath savedPath : String,
      saveHandlerFires watchedPath savedPath = true ↔
        (watchedPath = "." ∨ (savedPath ≠ "" ∧ jsEndsWith savedPath watchedPath = true))) ∧
    saveHandlerFires "file.txt" "/repo/sub/file.txt" = true ∧
    saveHandlerFires "file.txt" "/repo/other.txt" = false ∧
    (∀ savedPath : String, saveHandlerFires "." savedPath = true) := by
  refine ⟨?_, ?_, by decide, by decide, ?_⟩
  · intro gs id inst sp h
    unfold handleSave saveHandlerFires
    rw [h]
    dsimp only
    by_cases hA : (sp != "" && jsEndsWith sp inst.filePath) = true
    · rw [if_pos hA, if_pos (by rw [if_pos hA])]
    · rw [if_neg hA]
      by_cases hB : (inst.filePath == ".") = true
      · rw [if_pos hB, if_pos (by rw [if_neg hA, if_pos hB])]
      · rw [if_neg hB, if_neg (by rw [if_neg hA, if_neg hB]; exact Bool.false_ne_true)]
  · intro wp sp
    unfold saveHandlerFires
    by_cases hA : (sp != "" && jsEndsWith sp wp) = true
    · rw [if_pos hA]
      simp only [Bool.and_eq_true, bne_iff_ne, ne_eq] at hA
      exact ⟨fun _ => Or.inr ⟨hA.1, hA.2⟩, fun _ => rfl⟩
    · rw [if_neg hA]
      by_cases hB : (wp == ".") = true
      · rw [if_pos hB]
        exact ⟨fun _ => Or.inl (by simpa using hB), fun _ => rfl⟩
      · rw [if_neg hB]
        constructor
        · intro hfalse; exact absurd hfalse Bool.false_ne_true
        · intro hr
          rcases hr with hdot | ⟨hne, hend⟩
          · exact absurd (by simpa using hdot) hB
          · exact absurd (by simp only [Bool.and_eq_true, bne_iff_ne, ne_eq]; exact ⟨hne, hend⟩) hA
  · intro sp
    unfold saveHandlerFires
    by_cases hA : (sp != "" && jsEndsWith sp ".") = true
    · rw [if_pos hA]
    · rw [if_neg hA, if_pos (by simp)]

/-- Witness for the amended C2 at a concrete state. -/
theorem claim2_saveHandler_iff_witness :
    handleSave "x/old.txt" 0 gsW =
      (if saveHandlerFires "old.txt" "x/old.txt" then refreshViewContent 0 gsW else gsW) :=
  claim2_saveHandler_iff.1 gsW 0 instW "x/old.txt" rfl

/-- Claim C3: when the external execution collaborator rejects, the
`.then` continuation never runs (the source installs no rejection
handler), so the instance store — in particular every panel's
displayed HTML — and the registry slot are exactly as before the
failed attempt; the refresh attempt is simply dropped from `pending`. -/
theorem claim3_execResolve_error_preserves_content (render : String → String)
    (gs : GState) (n : Nat) (i : Nat) :
    (execResolve n (Except.error ()) render gs).instances i = gs.instances i ∧
    (execResolve n (Except.error ()) render gs).currentPanel = gs.currentPanel ∧
    (execResolve n (Except.error ()) render gs).refreshLog = gs.refreshLog := by
  unfold execResolve
  cases gs.pending.get? n with
  | none => exact ⟨rfl, rfl, rfl⟩
  | some pr => exact ⟨rfl, rfl, rfl⟩

/-- Claim C4: `createOrShow` on an occupied registry slot replaces the
stored command and watched path with the new arguments, synchronously
triggers a refresh carrying the new command, reveals the existing
panel in the requested column, and creates no new host panel (and no
new instance). -/
theorem claim4_createOrShow_reuse (e c f : String) (col : Nat) (gs : GState) (id : Nat)
    (inst : GitDiffView) (h1 : gs.currentPanel = some id)
    (h2 : gs.instances id = some inst) :
    (createOrShow e c f col gs).instances id =
      some { inst with gitCmd := c, filePath := f } ∧
    (createOrShow e c f col gs).refreshLog = gs.refreshLog ++ [(id, c)] ∧
    (createOrShow e c f col gs).pending = gs.pending ++ [(id, c)] ∧
    (createOrShow e c f col gs).revealLog = gs.revealLog ++ [(id, col)] ∧
    (createOrShow e c f col gs).panelsCreated = gs.panelsCreated ∧
    (createOrShow e c f col gs).nextId = gs.nextId ∧
    (createOrShow e c f col gs).currentPanel = some id :=
  createOrShow_reuse_state e c f col gs id inst h1 h2

/-- Witness for C4 at the concrete occupied state `gsW`. -/
theorem claim4_createOrShow_reuse_witness :
    (createOrShow "e2" "git log" "new.txt" 3 gsW).instances 0 =
      some { instW with gitCmd := "git log", filePath := "new.txt" } ∧
    (createOrShow "e2" "git log" "new.txt" 3 gsW).refreshLog =
      gsW.refreshLog ++ [(0, "git log")] ∧
    (createOrShow "e2" "git log" "new.txt" 3 gsW).pending =
      gsW.pending ++ [(0, "git log")] ∧
    (createOrShow "e2" "git log" "new.txt" 3 gsW).revealLog =
      gsW.revealLog ++ [(0, 3)] ∧
    (createOrShow "e2" "git log" "new.txt" 3 gsW).panelsCreated = gsW.panelsCreated ∧
    (createOrShow "e2" "git log" "new.txt" 3 gsW).nextId = gsW.nextId ∧
    (createOrShow "e2" "git log" "new.txt" 3 gsW).currentPanel = some 0 :=
  claim4_createOrShow_reuse "e2" "git log" "new.txt" 3 gsW 0 instW rfl rfl

/-- Claim C5: after `createOrShow` reuses the existing instance with a
new watched path `f`, the stored watched path is `f`, and the save
handler's decision for every subsequent saved path is exactly
`saveHandlerFires f savedPath`: matching uses only the new value,
never the previously stored one. -/
theorem claim5_reuse_new_watchedPath (e c f : String) (col : Nat) (gs : GState) (id : Nat)
    (inst : GitDiffView) (h1 : gs.currentPanel = some id)
    (h2 : gs.instances id = some inst) :
    ((createOrShow e c f col gs).instances id).map GitDiffView.filePath = some f ∧
    (∀ savedPath : String,
      handleSave savedPath id (createOrShow e c f col gs) =
        (if saveHandlerFires f savedPath then
          refreshViewContent id (createOrShow e c f col gs)
        else createOrShow e c f col gs)) := by
  have hinst := (createOrShow_reuse_state e c f col gs id inst h1 h2).1
  exact ⟨by rw [hinst]; rfl, fun sp => handleSave_eq_fires _ id _ sp hinst⟩

/-- Witness for C5 at the concrete occupied state `gsW`. -/
theorem claim5_reuse_new_watchedPath_witness :
    ((createOrShow "e2" "git log" "new.txt" 3 gsW).instances 0).map GitDiffView.filePath =
      some "new.txt" ∧
    handleSave "a/new.txt" 0 (createOrShow "e2" "git log" "new.txt" 3 gsW) =
      (if saveHandlerFires "new.txt" "a/new.txt" then
        refreshViewContent 0 (createOrShow "e2" "git log" "new.txt" 3 gsW)
      else createOrShow "e2" "git log" "new.txt" 3 gsW) :=
  ⟨(claim5_reuse_new_watchedPath "e2" "git log" "new.txt" 3 gsW 0 instW rfl rfl).1,
   (claim5_reuse_new_watchedPath "e2" "git log" "new.txt" 3 gsW 0 instW rfl rfl).2 "a/new.txt"⟩

/-- Claim C6: disposing the live instance clears the registry slot,
and a subsequent `createOrShow` constructs a genuinely new instance: a
fresh index distinct from the disposed one, a newly created host
panel, and a freshly initialised record in the store. -/
theorem claim6_dispose_clears_slot (gs : GState) (id : Nat) (inst : GitDiffView)
    (h2 : gs.instances id = some inst) (h3 : inst.disposed = false)
    (h4 : id < gs.nextId) :
    (dispose id gs).currentPanel = none ∧
    (∀ (e c f : String) (col : Nat),
      (createOrShow e c f col (dispose id gs)).nextId = gs.nextId + 1 ∧
      (createOrShow e c f col (dispose id gs)).currentPanel = some gs.nextId ∧
      gs.nextId ≠ id ∧
      (createOrShow e c f col (dispose id gs)).panelsCreated = gs.panelsCreated + 1 ∧
      (createOrShow e c f col (dispose id gs)).instances gs.nextId =
        some { mediaUri := e, gitCmd := c, filePath := f, webviewHtml := ""
               isPanelVisible := true, disposed := false }) := by
  have hd := dispose_run_fields gs id inst h2 h3
  refine ⟨hd.1, ?_⟩
  intro e c f col
  have hn := createOrShow_new_fields e c f col (dispose id gs) hd.1
  refine ⟨by rw [hn.1, hd.2.1], by rw [hn.2.2.1, hd.2.1], by omega,
          by rw [hn.2.1, hd.2.2.1], ?_⟩
  have h5 := hn.2.2.2
  rw [hd.2.1] at h5
  exact h5

/-- Witness for C6 at the concrete occupied state `gsW`. -/
theorem claim6_dispose_clears_slot_witness :
    (dispose 0 gsW).currentPanel = none ∧
    ((createOrShow "e3" "c3" "f3" 1 (dispose 0 gsW)).nextId = gsW.nextId + 1 ∧
      (createOrShow "e3" "c3" "f3" 1 (dispose 0 gsW)).currentPanel = some gsW.nextId ∧
      gsW.nextId ≠ 0 ∧
      (createOrShow "e3" "c3" "f3" 1 (dispose 0 gsW)).panelsCreated = gsW.panelsCreated + 1 ∧
      (createOrShow "e3" "c3" "f3" 1 (dispose 0 gsW)).instances gsW.nextId =
        some { mediaUri := "e3", gitCmd := "c3", filePath := "f3", webviewHtml := ""
               isPanelVisible := true, disposed := false }) :=
  ⟨(claim6_dispose_clears_slot gsW 0 instW rfl rfl (by decide)).1,
   (claim6_dispose_clears_slot gsW 0 instW rfl rfl (by decide)).2 "e3" "c3" "f3" 1⟩

/-- Claim C8: `dispose` is idempotent — a second call is a no-op
producing the identical state — and the four cleanup actions of the
chain run exactly once, in registration order, whether `dispose` is
called once or twice. -/
theorem claim8_dispose_idempotent (gs : GState) (i : Nat) :
    dispose i (dispose i gs) = dispose i gs ∧
    (∀ inst : GitDiffView, gs.instances i = some inst → inst.disposed = false →
      (dispose i gs).cleanupLog = gs.cleanupLog ++ [(i, 0), (i, 1), (i, 2), (i, 3)] ∧
      (dispose i (dispose i gs)).cleanupLog =
        gs.cleanupLog ++ [(i, 0), (i, 1), (i, 2), (i, 3)]) := by
  have hidem : dispose i (dispose i gs) = dispose i gs := by
    cases h : gs.instances i with
    | none => rw [dispose_noop_of_none gs i h, dispose_noop_of_none gs i h]
    | some inst =>
      cases hd : inst.disposed with
      | true =>
        rw [dispose_noop_of_disposed gs i inst h hd,
            dispose_noop_of_disposed gs i inst h hd]
      | false =>
        exact dispose_noop_of_disposed (dispose i gs) i _
          (dispose_run_fields gs i inst h hd).2.2.2.1 rfl
  refine ⟨hidem, fun inst h h3 => ⟨(dispose_run_fields gs i inst h h3).2.2.2.2.1, ?_⟩⟩
  rw [hidem]
  exact (dispose_run_fields gs i inst h h3).2.2.2.2.1

/-- Witness for C8 at the concrete state `gsW`. -/
theorem claim8_dispose_idempotent_witness :
    dispose 0 (dispose 0 gsW) = dispose 0 gsW ∧
    (dispose 0 gsW).cleanupLog = gsW.cleanupLog ++ [(0, 0), (0, 1), (0, 2), (0, 3)] ∧
    (dispose 0 (dispose 0 gsW)).cleanupLog =
      gsW.cleanupLog ++ [(0, 0), (0, 1), (0, 2), (0, 3)] :=
  ⟨(claim8_dispose_idempotent gsW 0).1,
   (claim8_dispose_idempotent gsW 0).2 instW rfl rfl⟩

/-- Claim C9 fails on the code: the constructor discards the
`onDidSaveTextDocument` subscription instead of handing it to
`registerDisposables`, so after the instance is disposed the listener
is still registered, and a save of a matching path still triggers a
refresh — a new command is handed to the shell executor.  Evaluated on
the explicit scenario: create, dispose, then save `/repo/file.txt`
against watched path `file.txt`. -/
theorem claim9_saveListener_fires_after_dispose :
    gsB.currentPanel = none ∧
    (gsB.instances 0).map GitDiffView.disposed = some true ∧
    gsB.saveListeners = [0] ∧
    gsC.refreshLog = gsB.refreshLog ++ [(0, "git diff HEAD")] ∧
    gsC.pending = gsB.pending ++ [(0, "git diff HEAD")] := by
  exact ⟨by decide, by decide, by decide, by decide, by decide⟩

/-- Claim C10: a freshly constructed instance has `isPanelVisible =
true`; the view-state hook stores the host-reported value (a write
happens exactly when the value differs — when it is equal the state is
untouched); and no other event changes the stored flag. -/
theorem claim10_isPanelVisible (render : String → String) :
    (∀ (e c f : String) (col : Nat) (gs : GState), gs.currentPanel = none →
      ((createOrShow e c f col gs).instances gs.nextId).map GitDiffView.isPanelVisible =
        some true) ∧
    (∀ (gs : GState) (i : Nat) (v : Bool) (inst : GitDiffView),
      gs.instances i = some inst → inst.disposed = false →
        ((handleViewChange i v gs).instances i).map GitDiffView.isPanelVisible = some v ∧
        (v = inst.isPanelVisible → handleViewChange i v gs = gs)) ∧
    (∀ (ev : Ev) (gs : GState) (i : Nat) (inst : GitDiffView),
      gs.instances i = some inst → i < gs.nextId →
      (∀ v : Bool, ev ≠ Ev.viewChange i v) →
        ((step render ev gs).instances i).map GitDiffView.isPanelVisible =
          some inst.isPanelVisible) := by
  refine ⟨?_, ?_, ?_⟩
  · intro e c f col gs h
    rw [(createOrShow_new_fields e c f col gs h).2.2.2]
    rfl
  · intro gs i v inst h h3
    unfold handleViewChange
    rw [h]
    dsimp only
    rw [if_neg (by rw [h3]; exact Bool.false_ne_true)]
    by_cases hveq : v = inst.isPanelVisible
    · rw [if_neg (by rw [hveq]; simp), h]
      exact ⟨by rw [hveq]; rfl, fun _ => rfl⟩
    · rw [if_pos (by simp [bne_iff_ne, hveq]), setInst_lookup_eq]
      exact ⟨rfl, fun he => absurd he hveq⟩
  · intro ev gs i inst h hlt hne
    cases ev with
    | createShow e c f col =>
      show ((createOrShow e c f col gs).instances i).map GitDiffView.isPanelVisible =
        some inst.isPanelVisible
      cases hcp : gs.currentPanel with
      | some j =>
        by_cases hij : i = j
        · subst hij
          rw [(createOrShow_reuse_state e c f col gs i inst hcp h).1]
          rfl
        · rw [createOrShow_reuse_other e c f col gs i j hcp hij, h]
          rfl
      | none =>
        rw [createOrShow_new_other e c f col gs i hcp (by omega), h]
        rfl
    | saved p =>
      show ((onSave p gs).instances i).map GitDiffView.isPanelVisible =
        some inst.isPanelVisible
      rw [onSave_instances, h]
      rfl
    | closePanel j =>
      exact dispose_visible_preserved gs j i inst h
    | execDone n res =>
      exact execResolve_visible_preserved render n res gs i inst h
    | viewChange j v =>
      have hij : j ≠ i := by
        intro hh
        exact hne v (by rw [hh])
      show ((handleViewChange j v gs).instances i).map GitDiffView.isPanelVisible =
        some inst.isPanelVisible
      unfold handleViewChange
      cases hj : gs.instances j with
      | none => rw [h]; rfl
      | some instj =>
        dsimp only
        by_cases hd : instj.disposed = true
        · rw [if_pos hd, h]; rfl
        · rw [if_neg hd]
          by_cases hv : (v != instj.isPanelVisible) = true
          · rw [if_pos hv, setInst_lookup_ne gs j i _ (fun hh => hij hh.symm), h]
            rfl
          · rw [if_neg hv, h]
            rfl

/-- Witness for C10 at concrete states and events. -/
theorem claim10_isPanelVisible_witness :
    ((createOrShow "e" "c" "f" 1 initState).instances initState.nextId).map
        GitDiffView.isPanelVisible = some true ∧
    (((handleViewChange 0 false gsW).instances 0).map GitDiffView.isPanelVisible =
        some false ∧
      (false = instW.isPanelVisible → handleViewChange 0 false gsW = gsW)) ∧
    ((step (fun s => s) (Ev.saved "x") gsW).instances 0).map GitDiffView.isPanelVisible =
      some instW.isPanelVisible :=
  ⟨(claim10_isPanelVisible (fun s => s)).1 "e" "c" "f" 1 initState rfl,
   (claim10_isPanelVisible (fun s => s)).2.1 gsW 0 false instW rfl rfl,
   (claim10_isPanelVisible (fun s => s)).2.2 (Ev.saved "x") gsW 0 instW rfl (by decide)
     (fun v hh => Ev.noConfusion hh)⟩

/-- Claim C7: for any rendered diff fragment (in particular the
external renderer's output for the diff text
`--- a\n+++ b\n@@ -1 +1 @@\n-old\n+new`) and any generating command,
`getHtmlForWebview` yields one HTML document: it starts with the
doctype, ends with the closing html tag, closes its head and body, and
contains the supplied command string verbatim; the fragment is
interpolated at exactly one site (instantiating it with a sentinel
yields exactly one occurrence, likewise for the command).  The
direct-content version of the method likewise embeds its fragment at
exactly one site of a single document, with no command. -/
theorem claim7_getHtmlForWebview_document (mediaUri frag gitCmd : String) :
    occurs gitCmd.data (getHtmlForWebview mediaUri frag gitCmd).data = true ∧
    occurs frag.data (getHtmlForWebview mediaUri frag gitCmd).data = true ∧
    isPre "\n\t\t<!DOCTYPE html>".data (getHtmlForWebview mediaUri frag gitCmd).data = true ∧
    isSuf "</html>".data (getHtmlForWebview mediaUri frag gitCmd).data = true ∧
    occurs "</head>".data (getHtmlForWebview mediaUri frag gitCmd).data = true ∧
    occurs "</body>".data (getHtmlForWebview mediaUri frag gitCmd).data = true ∧
    occCount "@@DIFF-FRAGMENT@@".data
      (getHtmlForWebview "URI" "@@DIFF-FRAGMENT@@" "git diff").data = 1 ∧
    occCount "@@CMD@@".data (getHtmlForWebview "URI" "frag" "@@CMD@@").data = 1 ∧
    occurs frag.data (getHtmlForWebviewDirect mediaUri frag).data = true ∧
    isPre "\n\t\t<!DOCTYPE html>".data (getHtmlForWebviewDirect mediaUri frag).data = true ∧
    isSuf "</html>".data (getHtmlForWebviewDirect mediaUri frag).data = true ∧
    occCount "@@DIFF-FRAGMENT@@".data
      (getHtmlForWebviewDirect "URI" "@@DIFF-FRAGMENT@@").data = 1 := by
  have hd : (getHtmlForWebview mediaUri frag gitCmd).data =
      htmlPartA.data ++ (mediaUri.data ++ (htmlPartB.data ++ (frag.data ++
        (htmlPartC.data ++ (gitCmd.data ++ htmlPartD.data))))) := by
    simp [getHtmlForWebview, String.data_append, List.append_assoc]
  have hd2 : (getHtmlForWebviewDirect mediaUri frag).data =
      htmlPartA.data ++ (mediaUri.data ++ (directPartB.data ++ (frag.data ++
        directPartC.data))) := by
    simp [getHtmlForWebviewDirect, String.data_append, List.append_assoc]
  refine ⟨?_, ?_, ?_, ?_, ?_, ?_, by decide, by decide, ?_, ?_, ?_, by decide⟩
  · rw [hd]
    exact occurs_app_right _ _ _ (occurs_app_right _ _ _ (occurs_app_right _ _ _
      (occurs_app_right _ _ _ (occurs_app_right _ _ _
        (occurs_of_pre _ _ (isPre_self_app _ _))))))
  · rw [hd]
    exact occurs_app_right _ _ _ (occurs_app_right _ _ _ (occurs_app_right _ _ _
      (occurs_of_pre _ _ (isPre_self_app _ _))))
  · rw [hd]
    exact isPre_app_ext _ _ _ (by decide)
  · rw [hd]
    exact isSuf_app_ext _ _ _ (isSuf_app_ext _ _ _ (isSuf_app_ext _ _ _
      (isSuf_app_ext _ _ _ (isSuf_app_ext _ _ _ (isSuf_app_ext _ _ _ (by decide))))))
  · rw [hd]
    exact occurs_app_right _ _ _ (occurs_app_right _ _ _
      (occurs_app_left _ _ _ (by decide)))
  · rw [hd]
    exact occurs_app_right _ _ _ (occurs_app_right _ _ _ (occurs_app_right _ _ _
      (occurs_app_right _ _ _ (occurs_app_right _ _ _
        (occurs_app_right _ _ _ (by decide))))))
  · rw [hd2]
    exact occurs_app_right _ _ _ (occurs_app_right _ _ _ (occurs_app_right _ _ _
      (occurs_of_pre _ _ (isPre_self_app _ _))))
  · rw [hd2]
    exact isPre_app_ext _ _ _ (by decide)
  · rw [hd2]
    exact isSuf_app_ext _ _ _ (isSuf_app_ext _ _ _ (isSuf_app_ext _ _ _
      (isSuf_app_ext _ _ _ (by decide))))
